import Mathlib

/-!
Verification of the `webview_proc` module: a shallow embedding of the
cross-process command/response protocol in `src/webview_proc.py`.

The worker-side window toolkit (`pywebview`) is an external collaborator;
it is modelled as an oracle (`Toolkit`) whose calls either return a value
or raise (`Except String`).  Python truthiness (`if response.error:`,
`if not destinations:`, `if not response.request_id:`) is modelled
explicitly, as is the file-truncating behaviour of `open(path, 'w')` /
`open(path, 'wb')`.
-/

/-- The Python values flowing through the protocol: `None`, booleans,
integers, strings, byte sequences (`bytes`, as lists of byte values),
lists of path strings, and tuples of strings (the example non-bytes
payload). -/
inductive PyVal where
  | none
  | bool (b : Bool)
  | int (n : Int)
  | str (s : String)
  | bytes (bs : List Nat)
  | strList (l : List String)
  | tuple (l : List String)
  deriving Repr, DecidableEq

/-- Python truthiness of a `PyVal` (`bool(v)`). -/
def pyTruthy : PyVal → Bool
  | .none => false
  | .bool b => b
  | .int n => !(n == 0)
  | .str s => !s.isEmpty
  | .bytes bs => !bs.isEmpty
  | .strList l => !l.isEmpty
  | .tuple l => !l.isEmpty

/-- The Python type name of a `PyVal`, as it appears in a `TypeError`
message. -/
def pyTypeName : PyVal → String
  | .none => "NoneType"
  | .bool _ => "bool"
  | .int _ => "int"
  | .str _ => "str"
  | .bytes _ => "bytes"
  | .strList _ => "list"
  | .tuple _ => "tuple"

/-- Python `v[0]` subscripting, used by `pick_file`'s `result[0]`. -/
def pySubscript0 : PyVal → Except String PyVal
  | .strList (x :: _) => .ok (.str x)
  | .strList [] => .error "IndexError: list index out of range"
  | .tuple (x :: _) => .ok (.str x)
  | .tuple [] => .error "IndexError: tuple index out of range"
  | .str s =>
    match s.data with
    | c :: _ => .ok (.str (String.mk [c]))
    | [] => .error "IndexError: string index out of range"
  | v => .error ("TypeError: '" ++ pyTypeName v ++ "' object is not subscriptable")

/-- `dataclass Response`: `request_id` defaults to `0`, `result` to
`None`, `error` to `None`. -/
structure Response where
  request_id : Nat := 0
  result : PyVal := .none
  error : Option String := Option.none
  deriving Repr, DecidableEq

/-- Python truthiness of the `error` field (`if response.error:`):
`None` and the empty string are falsy. -/
def errTruthy : Option String → Bool
  | Option.none => false
  | Option.some s => !s.isEmpty

/-- Python `f'{x}'` on an `str | None` value (`None` renders as
`"None"`). -/
def pyStrOfOptStr : Option String → String
  | Option.none => "None"
  | Option.some s => s

/-- The `Request` variants of `webview_proc.py`, each carrying its
`request_id`. -/
inductive Request where
  | close (request_id : Nat)
  | resize (request_id : Nat) (width height : Int)
  | setTitle (request_id : Nat) (title : String)
  | toggleFullscreen (request_id : Nat)
  | setMaximized (request_id : Nat) (maximized : Bool)
  | pickFile (request_id : Nat) (file_types : List String) (multiple : Bool)
  | saveFile (request_id : Nat) (file_contents : PyVal) (file_name : String)
      (directory : Option String)
  | evaluateJavascript (request_id : Nat) (js_code : String)
  | ping (request_id : Nat)
  deriving Repr, DecidableEq

/-- The `request_id` field shared by every `Request` variant. -/
def Request.request_id : Request → Nat
  | .close rid => rid
  | .resize rid _ _ => rid
  | .setTitle rid _ => rid
  | .toggleFullscreen rid => rid
  | .setMaximized rid _ => rid
  | .pickFile rid _ _ => rid
  | .saveFile rid _ _ _ => rid
  | .evaluateJavascript rid _ => rid
  | .ping rid => rid

/-- What `window.create_file_dialog` can return: `None`, a single path
string, or a sequence of path strings. -/
inductive DialogResult where
  | none
  | str (s : String)
  | list (l : List String)
  deriving Repr, DecidableEq

/-- Python truthiness of a dialog result (`if not destinations:`). -/
def dialogTruthy : DialogResult → Bool
  | .none => false
  | .str s => !s.isEmpty
  | .list l => !l.isEmpty

/-- The window toolkit oracle: each method either returns or raises. -/
structure Toolkit where
  destroy : Except String Unit
  resize : Int → Int → Except String Unit
  set_title : String → Except String Unit
  toggle_fullscreen : Except String Unit
  maximize : Except String Unit
  restore : Except String Unit
  create_file_dialog_open : Bool → List String → Except String DialogResult
  create_file_dialog_save : String → String → Except String DialogResult
  evaluate_js : String → Except String PyVal

/-- The worker-local filesystem: a map from path to file contents (a
byte sequence), `Option.none` when the file does not exist. -/
def FS : Type := String → Option (List Nat)

/-- Writing a file: the path now holds exactly `contents`. -/
def fsWrite (fs : FS) (path : String) (contents : List Nat) : FS :=
  fun p => if p = path then Option.some contents else fs p

/-- UTF-8 encoding of one Unicode scalar value. -/
def utf8EncodeCharNat (c : Nat) : List Nat :=
  if c < 0x80 then [c]
  else if c < 0x800 then [0xC0 + c / 64, 0x80 + c % 64]
  else if c < 0x10000 then [0xE0 + c / 4096, 0x80 + (c / 64) % 64, 0x80 + c % 64]
  else [0xF0 + c / 262144, 0x80 + (c / 4096) % 64, 0x80 + (c / 64) % 64, 0x80 + c % 64]

/-- UTF-8 encoding of a string (`open(..., 'w', encoding='utf-8')`). -/
def utf8Bytes (s : String) : List Nat :=
  (s.data.map Char.toNat).flatMap utf8EncodeCharNat

/-- The `file_types` rendering in `PickFileRequest.process`:
`[f'{ext} (*.{ext})' for ext in self.file_types] if self.file_types else []`. -/
def renderedFileTypes (fts : List String) : List String :=
  if fts.isEmpty then [] else fts.map (fun ext => ext ++ " (*." ++ ext ++ ")")

/-- `Request.process(window, conn)`: dispatch of one command against the
window handle.  A raised toolkit exception propagates as `.error`; the
filesystem component carries the state at return or raise time.  The
`saveFile` branch mirrors `SaveFileRequest.process`: dialog, Python
truthiness check, then `open(destination, 'w'/'wb')` — which truncates
the destination — followed by the write, which raises `TypeError` when
the contents are neither `str` nor bytes-like. -/
def Request.process (tk : Toolkit) (fs : FS) : Request → Except String Response × FS
  | .close rid =>
    match tk.destroy with
    | .ok _ => (.ok { request_id := rid, result := .bool true }, fs)
    | .error e => (.error e, fs)
  | .resize rid width height =>
    match tk.resize width height with
    | .ok _ => (.ok { request_id := rid, result := .bool true }, fs)
    | .error e => (.error e, fs)
  | .setTitle rid title =>
    match tk.set_title title with
    | .ok _ => (.ok { request_id := rid, result := .bool true }, fs)
    | .error e => (.error e, fs)
  | .toggleFullscreen rid =>
    match tk.toggle_fullscreen with
    | .ok _ => (.ok { request_id := rid, result := .bool true }, fs)
    | .error e => (.error e, fs)
  | .setMaximized rid maximized =>
    match (if maximized then tk.maximize else tk.restore) with
    | .ok _ => (.ok { request_id := rid, result := .bool true }, fs)
    | .error e => (.error e, fs)
  | .pickFile rid fts multiple =>
    match tk.create_file_dialog_open multiple (renderedFileTypes fts) with
    | .ok paths =>
      let result := match paths with
        | .str s => PyVal.strList [s]
        | .list l => if l.isEmpty then PyVal.strList [] else PyVal.strList l
        | .none => PyVal.strList []
      (.ok { request_id := rid, result := result }, fs)
    | .error e => (.error e, fs)
  | .saveFile rid contents name dir =>
    match tk.create_file_dialog_save name (dir.getD "") with
    | .ok destinations =>
      if !dialogTruthy destinations then
        (.ok { request_id := rid, result := .bool false }, fs)
      else
        let destination := match destinations with
          | .str s => s
          | .list l => l.headD ""
          | .none => ""
        match contents with
        | .str s =>
          (.ok { request_id := rid, result := .bool true },
            fsWrite fs destination (utf8Bytes s))
        | .bytes bs =>
          (.ok { request_id := rid, result := .bool true }, fsWrite fs destination bs)
        | other =>
          (.error ("a bytes-like object is required, not '" ++ pyTypeName other ++ "'"),
            fsWrite fs destination [])
    | .error e => (.error e, fs)
  | .evaluateJavascript rid code =>
    match tk.evaluate_js code with
    | .ok v => (.ok { request_id := rid, result := v }, fs)
    | .error e => (.error e, fs)
  | .ping rid => (.ok { request_id := rid, result := .bool true }, fs)

/-- One iteration of the worker's `handle_commands` body: execute the
request, converting a raised exception into a `Response` with the same
`request_id` and `error` set to the exception's description. -/
def handleOne (tk : Toolkit) (fs : FS) (req : Request) : Response × FS :=
  match req.process tk fs with
  | (.ok response, fs') => (response, fs')
  | (.error e, fs') => ({ request_id := req.request_id, error := Option.some e }, fs')

/-- The worker's `handle_commands` poller loop over a finite incoming
stream: `Option.none` is the channel-termination sentinel (`request is
None`), which stops the loop.  Returns the responses sent, in order,
and the final filesystem. -/
def handleCommands (tk : Toolkit) : FS → List (Option Request) → List Response × FS
  | fs, [] => ([], fs)
  | fs, Option.none :: _ => ([], fs)
  | fs, Option.some req :: rest =>
    let step := handleOne tk fs req
    let tail := handleCommands tk step.2 rest
    (step.1 :: tail.1, tail.2)

/-- The outcome of a façade call into `_send_command`. -/
inductive SendOutcome where
  | ok (v : PyVal)
  | raisedWebViewException (msg : String)
  | raisedNotRunning
  | blocked
  deriving Repr, DecidableEq

/-- The `while True: response = self.parent_conn.recv()` loop of
`_send_command`, over a finite list of incoming responses; an exhausted
list means the call would block forever. -/
def recvLoop (rid : Nat) : List Response → SendOutcome
  | [] => .blocked
  | response :: rest =>
    if response.request_id = rid then
      if errTruthy response.error then
        .raisedWebViewException (pyStrOfOptStr response.error)
      else .ok response.result
    else recvLoop rid rest

/-- `_send_command`: the aliveness guard, then one send followed by the
filtering receive loop.  The second component lists the requests sent on
the channel (empty when the guard raises). -/
def sendCommand (is_alive : Bool) (req : Request) (incoming : List Response) :
    SendOutcome × List Request :=
  if !is_alive then (.raisedNotRunning, [])
  else (recvLoop req.request_id incoming, [req])

/-- The outcome of the startup handshake `_wait_for_window`. -/
inductive HandshakeOutcome where
  | ok
  | raisedInitFailed (msg : String)
  | blocked
  deriving Repr, DecidableEq

/-- The `RuntimeError` message of `_wait_for_window`:
`f'Webview initialization failed: {response.error}'`. -/
def initFailMsg (error : Option String) : String :=
  "Webview initialization failed: " ++ pyStrOfOptStr error

/-- The receive loop of `_wait_for_window`: a response whose
`request_id` is falsy (zero) raises; a matching response with a truthy
`error` is retried; a matching response whose `result is True` returns;
everything else is discarded and the loop continues. -/
def waitForWindowLoop (rid : Nat) : List Response → HandshakeOutcome
  | [] => .blocked
  | response :: rest =>
    if response.request_id = 0 then .raisedInitFailed (initFailMsg response.error)
    else if response.request_id = rid then
      if errTruthy response.error then waitForWindowLoop rid rest
      else if response.result = .bool true then .ok
      else waitForWindowLoop rid rest
    else waitForWindowLoop rid rest

/-- The `Response(error=str(e))` sent by `_run_webview`'s `except`
clause when constructing or running the window fails: all other fields
take their dataclass defaults. -/
def runWebviewFailureResponse (e : String) : Response :=
  { error := Option.some e }

/-- `_new_request_id`: increment the instance's `_request_id` field and
return it. -/
def newRequestId (request_id : Nat) : Nat × Nat :=
  (request_id + 1, request_id + 1)

/-- The `_request_id` field after `n` calls to `_new_request_id`,
starting from the field's initial value `0`. -/
def requestIdState : Nat → Nat
  | 0 => 0
  | n + 1 => (newRequestId (requestIdState n)).2

/-- The value returned by the `(n+1)`-st call to `_new_request_id` (the
`request_id` assigned to the `(n+1)`-st command). -/
def assignedId (n : Nat) : Nat := (newRequestId (requestIdState n)).1

/-- The outcome of `WebViewProcess.start`, recording the value of
`sys.argv` while the worker was being spawned. -/
inductive StartOutcome where
  | ok (argvDuringSpawn : List String)
  | raisedAlreadyRunning
  | raisedHandshake (msg : String) (argvDuringSpawn : List String)
  deriving Repr, DecidableEq

/-- `WebViewProcess.start`: the already-running guard, then
`original_argv = sys.argv; sys.argv = sys.argv[:1]`, spawn plus
handshake (which may raise), and the `finally: sys.argv =
original_argv`.  Returns the outcome and the final `sys.argv` of the
spawning process. -/
def startFacade (argv0 : List String) (alreadyRunning : Bool)
    (handshake : Except String Unit) : StartOutcome × List String :=
  if alreadyRunning then (.raisedAlreadyRunning, argv0)
  else
    let original_argv := argv0
    let argvDuring := argv0.take 1
    match handshake with
    | .ok _ => (.ok argvDuring, original_argv)
    | .error e => (.raisedHandshake e argvDuring, original_argv)

/-- `WebViewProcess.close`: `_send_command(CloseRequest(...))`, and only
when that returns normally, `self._is_alive = False`.  Returns the
outcome and the final `_is_alive` flag. -/
def closeFacade (is_alive : Bool) (rid : Nat) (incoming : List Response) :
    SendOutcome × Bool :=
  match (sendCommand is_alive (Request.close rid) incoming).1 with
  | .ok v => (.ok v, false)
  | out => (out, is_alive)

/-- The return-value shaping of `WebViewProcess.pick_file`:
`result if multiple else result[0] if result else None`. -/
def pickFileUnwrap (multiple : Bool) (result : PyVal) : Except String PyVal :=
  if multiple then .ok result
  else if pyTruthy result then pySubscript0 result
  else .ok .none

/-- The empty filesystem: no file exists. -/
def fsEmpty : FS := fun _ => Option.none

/-- A toolkit whose every call succeeds benignly. -/
def tkOk : Toolkit where
  destroy := .ok ⟨⟩
  resize := fun _ _ => .ok ⟨⟩
  set_title := fun _ => .ok ⟨⟩
  toggle_fullscreen := .ok ⟨⟩
  maximize := .ok ⟨⟩
  restore := .ok ⟨⟩
  create_file_dialog_open := fun _ _ => .ok .none
  create_file_dialog_save := fun _ _ => .ok .none
  evaluate_js := fun _ => .ok .none

-- Helper lemmas shared across the development.

theorem String.isEmpty_false_of_ne {s : String} (h : s ≠ "") : s.isEmpty = false := by
  by_contra hc
  exact h ((String.isEmpty_iff s).mp (by simpa using hc))

theorem errTruthy_some_of_ne {s : String} (h : s ≠ "") :
    errTruthy (Option.some s) = true := by
  simp [errTruthy, String.isEmpty_false_of_ne h]

theorem recvLoop_append_skip (rid : Nat) (junk l : List Response)
    (h : ∀ x ∈ junk, x.request_id ≠ rid) :
    recvLoop rid (junk ++ l) = recvLoop rid l := by
  induction junk with
  | nil => rfl
  | cons r rest ih =>
    have hr : r.request_id ≠ rid := h r (List.mem_cons_self r rest)
    simp only [List.cons_append, recvLoop, if_neg hr]
    exact ih (fun x hx => h x (List.mem_cons_of_mem r hx))

theorem recvLoop_ne_raisedNotRunning (rid : Nat) (l : List Response) :
    recvLoop rid l ≠ SendOutcome.raisedNotRunning := by
  induction l with
  | nil => simp [recvLoop]
  | cons r rest ih =>
    simp only [recvLoop]
    by_cases hid : r.request_id = rid
    · rw [if_pos hid]
      by_cases he : errTruthy r.error
      · simp [he]
      · simp [he]
    · rw [if_neg hid]
      exact ih

theorem requestIdState_eq (n : Nat) : requestIdState n = n := by
  induction n with
  | zero => rfl
  | succ k ih => simp [requestIdState, newRequestId, ih]

theorem assignedId_eq (n : Nat) : assignedId n = n + 1 := by
  simp [assignedId, newRequestId, requestIdState_eq]

theorem pickFileUnwrap_strList_ok (m : Bool) (l : List String) :
    ∃ v, pickFileUnwrap m (.strList l) = .ok v := by
  cases m with
  | true => exact ⟨.strList l, rfl⟩
  | false =>
    cases l with
    | nil => exact ⟨.none, rfl⟩
    | cons x xs => exact ⟨.str x, rfl⟩

-- C6 ---------------------------------------------------------------------

/-- C6: every command-sending façade operation goes through
`_send_command`, whose first statement raises `RuntimeError` when the
façade is not alive (never started, or already closed); nothing is sent
on the channel and the incoming stream is never consulted, whatever the
request and whatever responses might be pending. -/
theorem send_command_guard_raises_before_channel (req : Request)
    (incoming : List Response) :
    sendCommand false req incoming = (.raisedNotRunning, []) := rfl

-- C7 ---------------------------------------------------------------------

/-- C7: `pick_file` returns `result if multiple else result[0] if result
else None`: with `multiple=False` a non-empty worker result list yields
its first element (in particular `["a.txt"]` yields `"a.txt"`), the
empty list yields `None`, and with `multiple=True` the worker's list is
returned unchanged. -/
theorem pick_file_unwrap_spec (x : String) (xs l : List String) :
    pickFileUnwrap false (.strList ["a.txt"]) = .ok (.str "a.txt")
    ∧ pickFileUnwrap false (.strList []) = .ok .none
    ∧ pickFileUnwrap false (.strList (x :: xs)) = .ok (.str x)
    ∧ pickFileUnwrap true (.strList l) = .ok (.strList l) := by
  refine ⟨rfl, rfl, ?_, rfl⟩
  simp [pickFileUnwrap, pyTruthy, pySubscript0, List.isEmpty]

-- C3 ---------------------------------------------------------------------

/-- C3: `_new_request_id` increments the instance counter (initially 0)
and returns it, so the IDs assigned to successive commands are `1, 2,
3, …`: the first is 1, the sequence is strictly increasing, never zero,
and never reuses a value. -/
theorem request_ids_strictly_increasing_from_one :
    assignedId 0 = 1
    ∧ (∀ m n : Nat, m < n → assignedId m < assignedId n)
    ∧ (∀ n : Nat, assignedId n ≠ 0)
    ∧ (∀ m n : Nat, assignedId m = assignedId n → m = n) := by
  refine ⟨rfl, ?_, ?_, ?_⟩
  · intro m n h
    simpa [assignedId_eq] using h
  · intro n
    simp [assignedId_eq]
  · intro m n h
    simpa [assignedId_eq] using h

/-- Witness for C3 at concrete indices. -/
theorem request_ids_strictly_increasing_from_one_witness :
    assignedId 2 < assignedId 5 ∧ assignedId 3 ≠ 0 :=
  ⟨request_ids_strictly_increasing_from_one.2.1 2 5 (by decide),
    request_ids_strictly_increasing_from_one.2.2.1 3⟩

-- C8 ---------------------------------------------------------------------

/-- C8: `start()` saves `sys.argv`, replaces it by `sys.argv[:1]` for
the spawn (resetting the worker's command-line state independently of
the spawning process's own arguments), and the `finally` block restores
it, so after `start()` returns or raises — handshake failure included,
and also on the already-running guard path, which precedes the argv
manipulation — `sys.argv` equals its value from before the call. -/
theorem start_restores_argv (argv0 : List String) (alreadyRunning : Bool)
    (handshake : Except String Unit) (e : String) :
    (startFacade argv0 alreadyRunning handshake).2 = argv0
    ∧ startFacade argv0 false (.ok ⟨⟩) = (.ok (argv0.take 1), argv0)
    ∧ startFacade argv0 false (.error e) = (.raisedHandshake e (argv0.take 1), argv0) := by
  refine ⟨?_, rfl, rfl⟩
  cases alreadyRunning with
  | true => rfl
  | false => cases handshake with
    | ok _ => rfl
    | error _ => rfl

-- C1 ---------------------------------------------------------------------

/-- C1: `_send_command` sends the Command and then loops on `recv`,
ignoring every Response whose `request_id` differs from the Command's;
the first matching Response completes the call, returning its `result`
— or raising `WebViewException` with its `error` when that error is
truthy. -/
theorem send_command_correlates (req : Request) (junk : List Response)
    (r : Response) (rest : List Response)
    (hj : ∀ x ∈ junk, x.request_id ≠ req.request_id)
    (hr : r.request_id = req.request_id) :
    sendCommand true req (junk ++ r :: rest)
      = (if errTruthy r.error then .raisedWebViewException (pyStrOfOptStr r.error)
          else .ok r.result, [req]) := by
  simp only [sendCommand, Bool.not_true, Bool.false_eq_true, if_false,
    recvLoop_append_skip req.request_id junk (r :: rest) hj]
  simp [recvLoop, hr]

/-- Witness for C1: two stale responses (IDs 3 and 9) are skipped and
the matching response (ID 7) still yields its result. -/
theorem send_command_correlates_witness :
    sendCommand true (.ping 7)
        ([{ request_id := 3, result := .bool true },
          { request_id := 9, error := Option.some "stale" }]
          ++ { request_id := 7, result := .str "v" } :: [])
      = (.ok (.str "v"), [.ping 7]) := by
  simpa using send_command_correlates (.ping 7)
    [{ request_id := 3, result := .bool true },
      { request_id := 9, error := Option.some "stale" }]
    { request_id := 7, result := .str "v" } [] (by decide) (by decide)

-- C2 ---------------------------------------------------------------------

/-- C2: a failure in `_run_webview`'s `try` block (window-handle
construction included) is sent as `Response(error=str(e))`, whose
dataclass defaults make `request_id = 0`; during the handshake
`_wait_for_window` raises `RuntimeError` as soon as it receives any
response with `request_id = 0`, while a response matching neither 0 nor
the Ping's `request_id` is discarded and the loop continues. -/
theorem handshake_sentinel_fatal (rid : Nat) (e : String) (r0 r1 : Response)
    (rest0 rest1 : List Response) (h0 : r0.request_id = 0)
    (h1 : r1.request_id ≠ 0) (h2 : r1.request_id ≠ rid) :
    (runWebviewFailureResponse e).request_id = 0
    ∧ (runWebviewFailureResponse e).error = Option.some e
    ∧ waitForWindowLoop rid (r0 :: rest0) = .raisedInitFailed (initFailMsg r0.error)
    ∧ waitForWindowLoop rid (r1 :: rest1) = waitForWindowLoop rid rest1 := by
  refine ⟨rfl, rfl, ?_, ?_⟩
  · simp [waitForWindowLoop, h0]
  · simp [waitForWindowLoop, h1, h2]

/-- Witness for C2: the worker's failure response for `"boom"` has the
sentinel ID 0, the handshake (Ping ID 1) raises on receiving it, and a
stale response with ID 3 is skipped. -/
theorem handshake_sentinel_fatal_witness :
    (runWebviewFailureResponse "boom").request_id = 0
    ∧ waitForWindowLoop 1 [{ request_id := 0, error := Option.some "boom" }]
      = .raisedInitFailed "Webview initialization failed: boom"
    ∧ waitForWindowLoop 1
        [{ request_id := 3, result := .bool true },
          { request_id := 1, result := .bool true }]
      = waitForWindowLoop 1 [{ request_id := 1, result := .bool true }] := by
  have h := handshake_sentinel_fatal 1 "boom"
    { request_id := 0, error := Option.some "boom" }
    { request_id := 3, result := .bool true }
    [] [{ request_id := 1, result := .bool true }] (by decide) (by decide) (by decide)
  exact ⟨h.1, h.2.2.1, h.2.2.2⟩

-- C10 --------------------------------------------------------------------

/-- C10: whatever the open-file dialog returns, `PickFileRequest.process`
responds with a list of strings: a single string path is wrapped into a
one-element list, `None` and the empty selection both yield `[]`, and
`pick_file`'s `multiple=False` unwrapping therefore always operates on a
list and never fails. -/
theorem pick_file_worker_result_is_string_list (rid : Nat) (fts : List String)
    (mult : Bool) (tk : Toolkit) (fs : FS) (d : DialogResult)
    (hd : tk.create_file_dialog_open mult (renderedFileTypes fts) = .ok d) :
    (∃ l : List String,
        handleOne tk fs (.pickFile rid fts mult)
          = ({ request_id := rid, result := .strList l }, fs)
        ∧ ∀ m : Bool, ∃ v, pickFileUnwrap m (.strList l) = .ok v)
    ∧ (∀ s, d = .str s →
        (handleOne tk fs (.pickFile rid fts mult)).1.result = .strList [s])
    ∧ (d = .none →
        (handleOne tk fs (.pickFile rid fts mult)).1.result = .strList [])
    ∧ (d = .list [] →
        (handleOne tk fs (.pickFile rid fts mult)).1.result = .strList []) := by
  have hmain : ∀ l : List String,
      (match d with
        | .str s => PyVal.strList [s]
        | .list l => if l.isEmpty then PyVal.strList [] else PyVal.strList l
        | .none => PyVal.strList []) = .strList l →
      handleOne tk fs (.pickFile rid fts mult)
        = ({ request_id := rid, result := .strList l }, fs) := by
    intro l hl
    simp [handleOne, Request.process, hd, ← hl]
  refine ⟨?_, ?_, ?_, ?_⟩
  · cases d with
    | none => exact ⟨[], hmain [] rfl, fun m => pickFileUnwrap_strList_ok m []⟩
    | str s => exact ⟨[s], hmain [s] rfl, fun m => pickFileUnwrap_strList_ok m [s]⟩
    | list l =>
      cases l with
      | nil => exact ⟨[], hmain [] rfl, fun m => pickFileUnwrap_strList_ok m []⟩
      | cons x xs =>
        exact ⟨x :: xs, hmain (x :: xs) (by simp [List.isEmpty]),
          fun m => pickFileUnwrap_strList_ok m (x :: xs)⟩
  · rintro s rfl
    rw [hmain [s] rfl]
  · rintro rfl
    rw [hmain [] rfl]
  · rintro rfl
    rw [hmain [] rfl]

/-- Witness for C10: a toolkit whose open dialog returns the single
string `"a.txt"` produces the response result `["a.txt"]`. -/
theorem pick_file_worker_result_is_string_list_witness :
    (handleOne { tkOk with create_file_dialog_open := fun _ _ => .ok (.str "a.txt") }
        fsEmpty (.pickFile 1 [] false)).1.result = .strList ["a.txt"] :=
  (pick_file_worker_result_is_string_list 1 [] false
    { tkOk with create_file_dialog_open := fun _ _ => .ok (.str "a.txt") }
    fsEmpty (.str "a.txt") rfl).2.1 "a.txt" rfl

-- Shared helper: the outcome of the matching head of the receive loop.

theorem recvLoop_single_match (rid : Nat) (r : Response) (hr : r.request_id = rid) :
    recvLoop rid [r]
      = (if errTruthy r.error then .raisedWebViewException (pyStrOfOptStr r.error)
          else .ok r.result) := by
  simp [recvLoop, hr]

-- C4 ---------------------------------------------------------------------

/-- C4 counterexample: a toolkit failure whose description is the empty
string (`str(e) == ''`, e.g. `raise Exception()`).  The worker does send
`Response(request_id=1, error='')`, but the façade's `if
response.error:` treats the empty string as falsy, so `_send_command`
returns the `None` result instead of raising `WebViewException('')` —
the claim's "raises a typed exception whose message equals that error
string" is false for this input. -/
theorem evaluate_empty_error_not_raised :
    (handleOne { tkOk with evaluate_js := fun _ => .error "" } fsEmpty
        (.evaluateJavascript 1 "f()")).1
      = { request_id := 1, result := .none, error := Option.some "" }
    ∧ recvLoop 1 [{ request_id := 1, result := .none, error := Option.some "" }]
      = .ok .none := by
  exact ⟨by decide, by decide⟩

/-- C4 (amended): when a toolkit call raises while the worker executes a
Command such as `EvaluateScript`, the worker sends a Response with the
same `request_id`, `error` set to the failure's description, and no
`result`; the poller loop keeps running and processes the remaining
commands; and, provided that description is non-empty, the façade raises
`WebViewException` with exactly that message (an empty description is
falsy in `if response.error:` and makes the façade return the null
result instead). -/
theorem evaluate_error_propagates (tk : Toolkit) (rid : Nat) (code e : String)
    (fs : FS) (rest : List (Option Request)) (junk : List Response)
    (he : tk.evaluate_js code = .error e) (hne : e ≠ "")
    (hj : ∀ x ∈ junk, x.request_id ≠ rid) :
    handleOne tk fs (.evaluateJavascript rid code)
      = ({ request_id := rid, result := .none, error := Option.some e }, fs)
    ∧ (handleCommands tk fs (Option.some (.evaluateJavascript rid code) :: rest)).1
      = { request_id := rid, result := .none, error := Option.some e }
          :: (handleCommands tk fs rest).1
    ∧ recvLoop rid (junk ++ [{ request_id := rid, result := .none, error := Option.some e }])
      = .raisedWebViewException e := by
  have h1 : handleOne tk fs (.evaluateJavascript rid code)
      = ({ request_id := rid, result := .none, error := Option.some e }, fs) := by
    simp [handleOne, Request.process, Request.request_id, he]
  refine ⟨h1, ?_, ?_⟩
  · simp [handleCommands, h1]
  · rw [recvLoop_append_skip rid junk _ hj]
    rw [recvLoop_single_match rid _ rfl]
    simp [errTruthy_some_of_ne hne, pyStrOfOptStr]

/-- Witness for the amended C4 at a failure described by `"boom"`. -/
theorem evaluate_error_propagates_witness :
    (handleOne { tkOk with evaluate_js := fun _ => .error "boom" } fsEmpty
        (.evaluateJavascript 1 "f()")).1
      = { request_id := 1, result := .none, error := Option.some "boom" }
    ∧ recvLoop 1 [{ request_id := 1, result := .none, error := Option.some "boom" }]
      = .raisedWebViewException "boom" := by
  have h := evaluate_error_propagates
    { tkOk with evaluate_js := fun _ => .error "boom" }
    1 "f()" "boom" fsEmpty [] [] rfl (by decide) (by decide)
  exact ⟨by rw [h.1], by simpa using h.2.2⟩

-- C5 ---------------------------------------------------------------------

/-- The save-dialog toolkit used by the C5 counterexample: the save
dialog always chooses `"out.txt"`. -/
def tkSaveOut : Toolkit :=
  { tkOk with create_file_dialog_save := fun _ _ => .ok (.str "out.txt") }

/-- A filesystem in which `"out.txt"` already holds the UTF-8 bytes of
`"old"`. -/
def fsOld : FS :=
  fun p => if p = "out.txt" then Option.some (utf8Bytes "old") else Option.none

/-- C5 counterexample: `save_file` with tuple contents does raise a
typed error, but not "without writing to the destination file": the
`else` branch has already executed `open(destination, 'wb')`, which
truncates the chosen file, before `f.write(())` raises `TypeError` —
here the destination's prior contents (the bytes of `"old"`) are
destroyed, leaving an empty file. -/
theorem save_file_tuple_truncates_destination :
    fsOld "out.txt" = Option.some (utf8Bytes "old")
    ∧ (handleOne tkSaveOut fsOld (.saveFile 1 (.tuple []) "out.txt" Option.none)).1
      = { request_id := 1,
          error := Option.some "a bytes-like object is required, not 'tuple'" }
    ∧ (handleOne tkSaveOut fsOld (.saveFile 1 (.tuple []) "out.txt" Option.none)).2
        "out.txt" = Option.some []
    ∧ (handleOne tkSaveOut fsOld (.saveFile 1 (.tuple []) "out.txt" Option.none)).2
        "out.txt" ≠ fsOld "out.txt" := by
  refine ⟨by decide, by decide, by decide, by decide⟩

/-- C5 (amended): with a successful dialog selection, `save_file` with
text contents writes exactly the UTF-8 bytes of that text to the chosen
path (leaving every other file unchanged) and returns `True`; a
canceled dialog returns `False` and performs no filesystem write;
contents that are neither text nor bytes (e.g. the empty tuple) raise a
typed error carried to the façade as `WebViewException` — but only
after the destination file has been opened for writing and hence
truncated to empty. -/
theorem save_file_spec (rid : Nat) (s name dest : String) (dir : Option String)
    (tk tk2 : Toolkit) (fs : FS) (contents : PyVal)
    (hdest : dest ≠ "")
    (hdlg : tk.create_file_dialog_save name (dir.getD "") = .ok (.str dest))
    (hcancel : tk2.create_file_dialog_save name (dir.getD "") = .ok .none) :
    (handleOne tk fs (.saveFile rid (.str s) name dir)).1
      = { request_id := rid, result := .bool true }
    ∧ (handleOne tk fs (.saveFile rid (.str s) name dir)).2 dest
      = Option.some (utf8Bytes s)
    ∧ (∀ p, p ≠ dest → (handleOne tk fs (.saveFile rid (.str s) name dir)).2 p = fs p)
    ∧ recvLoop rid [{ request_id := rid, result := .bool true }] = .ok (.bool true)
    ∧ handleOne tk2 fs (.saveFile rid contents name dir)
      = ({ request_id := rid, result := .bool false }, fs)
    ∧ recvLoop rid [{ request_id := rid, result := .bool false }] = .ok (.bool false)
    ∧ (handleOne tk fs (.saveFile rid (.tuple []) name dir)).1
      = { request_id := rid,
          error := Option.some "a bytes-like object is required, not 'tuple'" }
    ∧ (handleOne tk fs (.saveFile rid (.tuple []) name dir)).2 dest = Option.some []
    ∧ recvLoop rid
        [{ request_id := rid,
           error := Option.some "a bytes-like object is required, not 'tuple'" }]
      = .raisedWebViewException "a bytes-like object is required, not 'tuple'" := by
  have htr : dialogTruthy (.str dest) = true := by
    simp [dialogTruthy, String.isEmpty_false_of_ne hdest]
  have h1 : handleOne tk fs (.saveFile rid (.str s) name dir)
      = ({ request_id := rid, result := .bool true }, fsWrite fs dest (utf8Bytes s)) := by
    simp [handleOne, Request.process, hdlg, htr]
  have h2 : handleOne tk2 fs (.saveFile rid contents name dir)
      = ({ request_id := rid, result := .bool false }, fs) := by
    simp [handleOne, Request.process, hcancel, dialogTruthy]
  have h3 : handleOne tk fs (.saveFile rid (.tuple []) name dir)
      = ({ request_id := rid,
            error := Option.some "a bytes-like object is required, not 'tuple'" },
          fsWrite fs dest []) := by
    simp [handleOne, Request.process, Request.request_id, hdlg, htr, pyTypeName]
  refine ⟨by rw [h1], ?_, ?_, ?_, h2, ?_, by rw [h3], ?_, ?_⟩
  · rw [h1]
    simp [fsWrite]
  · intro p hp
    rw [h1]
    simp [fsWrite, hp]
  · rw [recvLoop_single_match rid _ rfl]
    rfl
  · rw [recvLoop_single_match rid _ rfl]
    rfl
  · rw [h3]
    simp [fsWrite]
  · rw [recvLoop_single_match rid _ rfl]
    rfl

/-- Witness for the amended C5: saving `"hello"` through a dialog that
chooses `"d.txt"` writes the five UTF-8 bytes of `"hello"`; the same
call through a canceling dialog leaves the empty filesystem unchanged
and returns `False`. -/
theorem save_file_spec_witness :
    (handleOne { tkOk with create_file_dialog_save := fun _ _ => .ok (.str "d.txt") }
        fsEmpty (.saveFile 1 (.str "hello") "hello.txt" Option.none)).2 "d.txt"
      = Option.some (utf8Bytes "hello")
    ∧ utf8Bytes "hello" = [104, 101, 108, 108, 111]
    ∧ handleOne tkOk fsEmpty (.saveFile 1 (.str "hello") "hello.txt" Option.none)
      = ({ request_id := 1, result := .bool false }, fsEmpty) := by
  have h := save_file_spec 1 "hello" "hello.txt" "d.txt" Option.none
    { tkOk with create_file_dialog_save := fun _ _ => .ok (.str "d.txt") }
    tkOk fsEmpty (.str "hello") (by decide) rfl rfl
  exact ⟨h.2.1, by decide, h.2.2.2.2.1⟩

-- C9 ---------------------------------------------------------------------

/-- C9 counterexample: a Close Response that carries an error — `error`
is present, equal to `Some ""` — on which `close()` does not raise:
the empty string is falsy in `if response.error:`, so `_send_command`
returns and `close()` goes on to clear `_is_alive`. -/
theorem close_empty_error_completes_and_clears :
    ({ request_id := 1, error := Option.some "" } : Response).error ≠ Option.none
    ∧ closeFacade true 1 [{ request_id := 1, error := Option.some "" }]
      = (.ok .none, false) := by
  exact ⟨by decide, by decide⟩

/-- C9 (amended): when the worker's Response to the Close command
carries a non-empty error string, `_send_command` raises
`WebViewException` inside `close()` before the `self._is_alive = False`
line runs, so the façade remains alive, and a subsequent
command-sending operation passes the aliveness guard and is sent on the
channel rather than being rejected. -/
theorem close_nonempty_error_keeps_alive (rid : Nat) (msg : String)
    (junk rest : List Response) (req2 : Request) (inc2 : List Response)
    (hmsg : msg ≠ "") (hj : ∀ x ∈ junk, x.request_id ≠ rid) :
    closeFacade true rid (junk ++ { request_id := rid, error := Option.some msg } :: rest)
      = (.raisedWebViewException msg, true)
    ∧ (sendCommand true req2 inc2).1 ≠ .raisedNotRunning
    ∧ (sendCommand true req2 inc2).2 = [req2] := by
  have hrecv : recvLoop rid (junk ++ { request_id := rid, error := Option.some msg } :: rest)
      = .raisedWebViewException msg := by
    rw [recvLoop_append_skip rid junk _ hj]
    simp [recvLoop, errTruthy_some_of_ne hmsg, pyStrOfOptStr]
  refine ⟨?_, ?_, rfl⟩
  · simp [closeFacade, sendCommand, Request.request_id, hrecv]
  · simpa [sendCommand] using recvLoop_ne_raisedNotRunning req2.request_id inc2

/-- Witness for the amended C9: a Close Response with error `"boom"`
leaves the façade alive. -/
theorem close_nonempty_error_keeps_alive_witness :
    closeFacade true 1 ([] ++ { request_id := 1, error := Option.some "boom" } :: [])
      = (.raisedWebViewException "boom", true) :=
  (close_nonempty_error_keeps_alive 1 "boom" [] [] (.ping 2) []
    (by decide) (by decide)).1
